import Mathlib

/-!
Shallow embedding of the WebGL rendering backend of the imodeljs repository
(`System.ts`: the `Capabilities` prober, the per-connection `IdMap` resource
cache, the `System` facade with its texture-unit binding table and
vertex-attribute state reconciliation, and the sheet-tile tessellator),
together with theorems settling the specification claims about it.

Conventions of the embedding:
* JavaScript object identity is modelled by a `Nat` serial number (`objId`)
  drawn from an explicit counter `ctr` threaded through each operation; two
  results are "the identical instance" exactly when their serial numbers agree
  and no fresh serial number was consumed.
* JavaScript `Map` objects are modelled as association lists with
  replace-or-append insertion; the `Dictionary` keyed by a comparator is an
  association list looked up through that comparator.
* Calls into the GL driver are recorded in an explicit trace of `GLCall`
  events, most recent last.
* External GPU outcomes (texture-handle allocation, clip-volume construction)
  are supplied by a `GpuEnv` oracle, since the driver is outside the program.
-/

namespace RenderWebGL

/-- Lookup in an association list by decidable key equality (models
`Map.get`). -/
def alookup {α β : Type} [DecidableEq α] (k : α) : List (α × β) → Option β
  | [] => none
  | (k', v) :: rest => if k' = k then some v else alookup k rest

/-- Replace-or-append insertion in an association list (models `Map.set`). -/
def aset {α β : Type} [DecidableEq α] (k : α) (v : β) : List (α × β) → List (α × β)
  | [] => [(k, v)]
  | (k', v') :: rest => if k' = k then (k, v) :: rest else (k', v') :: aset k v rest

/-- Lookup through a boolean key-equivalence (models `Dictionary.get`, whose
keys are compared by a caller-supplied comparator rather than identity). -/
def dictLookup {κ β : Type} (eqk : κ → κ → Bool) (k : κ) : List (κ × β) → Option β
  | [] => none
  | (k', v) :: rest => if eqk k' k then some v else dictLookup eqk k rest

/-- Replace-or-append insertion through a boolean key-equivalence (models
`Dictionary.set`). -/
def dictSet {κ β : Type} (eqk : κ → κ → Bool) (k : κ) (v : β) : List (κ × β) → List (κ × β)
  | [] => [(k, v)]
  | (k', v') :: rest => if eqk k' k then (k, v) :: rest else (k', v') :: dictSet eqk k v rest

/-- A call into the WebGL driver (or another externally visible effect),
recorded so that theorems can count and order driver traffic. -/
inductive GLCall : Type where
  /-- `context.enableVertexAttribArray(i)` -/
  | enableVertexAttribArray (i : Nat)
  /-- `context.disableVertexAttribArray(i)` -/
  | disableVertexAttribArray (i : Nat)
  /-- `instancingExtension.vertexAttribDivisorANGLE(i, d)` -/
  | vertexAttribDivisor (i : Nat) (d : Nat)
  /-- `context.activeTexture(unit)` -/
  | activeTexture (unit : Nat)
  /-- `context.bindTexture(target, texture)` (`none` stands for `null`) -/
  | bindTexture (target : Nat) (texture : Option Nat)
  /-- release of a GPU-backed resource with serial number `id` (`dispose`) -/
  | disposeResource (id : Nat)
  /-- rasterization of a gradient symbol into a `w × h` image buffer
  (`Gradient.Symb.getImage`) -/
  | rasterizeGradient (w : Nat) (h : Nat)
  /-- successful allocation of a GPU texture handle of size `w × h` with
  serial number `id` (`TextureHandle.createForImageBuffer`) -/
  | allocTextureHandle (w : Nat) (h : Nat) (id : Nat)
deriving DecidableEq, Repr

/-! ## Capabilities

Embedding of `Capabilities` from `System.ts`.  The numeric values of the
`const enum`s `RenderType` and `DepthType` are kept as the TypeScript compiler
assigns them (declaration order, starting at 0), since `DepthType` values flow
into a `switch` with a default branch. -/

/-- TypeScript `const enum RenderType` member `TextureUnsignedByte`. -/
def RenderType.TextureUnsignedByte : Nat := 0
/-- TypeScript `const enum RenderType` member `TextureHalfFloat`. -/
def RenderType.TextureHalfFloat : Nat := 1
/-- TypeScript `const enum RenderType` member `TextureFloat`. -/
def RenderType.TextureFloat : Nat := 2

/-- TypeScript `const enum DepthType` member `RenderBufferUnsignedShort16`. -/
def DepthType.RenderBufferUnsignedShort16 : Nat := 0
/-- TypeScript `const enum DepthType` member `TextureUnsignedInt24Stencil8`. -/
def DepthType.TextureUnsignedInt24Stencil8 : Nat := 1
/-- TypeScript `const enum DepthType` member `TextureUnsignedInt32`. -/
def DepthType.TextureUnsignedInt32 : Nat := 2

/-- `const forceNoDrawBuffers = false;` from `System.ts`. -/
def forceNoDrawBuffers : Bool := false
/-- `const forceHalfFloat = false;` from `System.ts`. -/
def forceHalfFloat : Bool := false

/-- The observable state of a `WebGLRenderingContext` as far as
`Capabilities.init` queries it: the numeric limits returned by
`getParameter`, the supported-extension list from `getSupportedExtensions`,
the set of extensions for which `getExtension` returns a non-null object, and
the outcomes of the two color-renderability probes. -/
structure GLContext : Type where
  maxTextureSize : Nat
  maxFragTextureUnits : Nat
  maxVertTextureUnits : Nat
  maxVertAttribs : Nat
  maxVertUniformVectors : Nat
  maxVaryingVectors : Nat
  maxFragUniformVectors : Nat
  /-- result of `gl.getSupportedExtensions()` -/
  supportedExtensions : List String
  /-- extensions for which `gl.getExtension(name)` returns a non-null object -/
  getExtensionOk : List String
  /-- outcome of `isTextureRenderable(gl, gl.FLOAT)` -/
  floatRenderable : Bool
  /-- outcome of `isTextureRenderable(gl, hfExt.HALF_FLOAT_OES)` -/
  halfFloatRenderable : Bool
  /-- value of `gl.getParameter(dbExt.MAX_COLOR_ATTACHMENTS_WEBGL)` -/
  maxColorAttachmentsExt : Nat
  /-- value of `gl.getParameter(dbExt.MAX_DRAW_BUFFERS_WEBGL)` -/
  maxDrawBuffersExt : Nat
deriving DecidableEq, Repr

/-- The allow-list test applied to each supported extension inside the loop of
`Capabilities.init` (with the constants `forceNoDrawBuffers` and
`forceHalfFloat` in place). -/
def extensionRequested (ext : String) : Bool :=
  (!forceNoDrawBuffers && ext == "WEBGL_draw_buffers") || ext == "OES_element_index_uint" ||
    (!forceHalfFloat && ext == "OES_texture_float") || ext == "OES_texture_half_float" ||
    ext == "WEBGL_depth_texture" || ext == "EXT_color_buffer_float" ||
    ext == "EXT_shader_texture_lod" || ext == "ANGLE_instanced_arrays"

/-- The `Capabilities` snapshot built by `init`: the queried limits, the two
derived maximum formats, and the retained extension objects (`_extensionMap`,
modelled by the list of names stored in it). -/
structure Capabilities : Type where
  maxRenderType : Nat
  maxDepthType : Nat
  maxTextureSize : Nat
  maxColorAttachments : Nat
  maxDrawBuffers : Nat
  maxFragTextureUnits : Nat
  maxVertTextureUnits : Nat
  maxVertAttribs : Nat
  maxVertUniformVectors : Nat
  maxVaryingVectors : Nat
  maxFragUniformVectors : Nat
  extensionMap : List String
deriving DecidableEq, Repr

/-- `Capabilities.queryExtensionObject` succeeds exactly when the extension was
stored in `_extensionMap` (entries are stored only when non-null). -/
def Capabilities.queryExtensionObject (caps : Capabilities) (ext : String) : Bool :=
  caps.extensionMap.contains ext

/-- `Capabilities.supports32BitElementIndex`. -/
def Capabilities.supports32BitElementIndex (caps : Capabilities) : Bool :=
  caps.queryExtensionObject "OES_element_index_uint"

/-- `Capabilities._hasRequiredFeatures`: 32-bit element indices are mandatory. -/
def Capabilities.hasRequiredFeatures (caps : Capabilities) : Bool :=
  caps.supports32BitElementIndex

/-- `Capabilities._hasRequiredTextureUnits`: more than 4 fragment and more
than 5 vertex texture units. -/
def Capabilities.hasRequiredTextureUnits (caps : Capabilities) : Bool :=
  decide (4 < caps.maxFragTextureUnits) && decide (5 < caps.maxVertTextureUnits)

/-- `Capabilities.init(gl)`: queries the limits, fills `_extensionMap` from
the allow-listed extensions that enable successfully, derives
`maxColorAttachments`/`maxDrawBuffers`, `maxRenderType` (via the
renderability probes) and `maxDepthType` (via `WEBGL_depth_texture`
presence), and reports success iff `_hasRequiredFeatures` and
`_hasRequiredTextureUnits` hold.  Returns the built snapshot together with
the success flag. -/
def Capabilities.init (gl : GLContext) : Capabilities × Bool :=
  let extensionMap : List String :=
    gl.supportedExtensions.filter (fun e => extensionRequested e && gl.getExtensionOk.contains e)
  let dbExt : Bool := extensionMap.contains "WEBGL_draw_buffers"
  let maxColorAttachments : Nat := if dbExt then gl.maxColorAttachmentsExt else 1
  let maxDrawBuffers : Nat := if dbExt then gl.maxDrawBuffersExt else 1
  let maxRenderType : Nat :=
    if !forceHalfFloat && gl.floatRenderable then RenderType.TextureFloat
    else if extensionMap.contains "OES_texture_half_float" && gl.halfFloatRenderable then
      RenderType.TextureHalfFloat
    else RenderType.TextureUnsignedByte
  let maxDepthType : Nat :=
    if extensionMap.contains "WEBGL_depth_texture" then DepthType.TextureUnsignedInt24Stencil8
    else DepthType.RenderBufferUnsignedShort16
  let caps : Capabilities :=
    ⟨maxRenderType, maxDepthType, gl.maxTextureSize, maxColorAttachments, maxDrawBuffers,
      gl.maxFragTextureUnits, gl.maxVertTextureUnits, gl.maxVertAttribs,
      gl.maxVertUniformVectors, gl.maxVaryingVectors, gl.maxFragUniformVectors, extensionMap⟩
  (caps, caps.hasRequiredFeatures && caps.hasRequiredTextureUnits)

/-- `Capabilities.create(gl)`: a usable snapshot exactly when `init` reports
success. -/
def Capabilities.create (gl : GLContext) : Option Capabilities :=
  let r := Capabilities.init gl
  if r.2 then some r.1 else none

/-- Whether the context supports the 32-bit element index extension in the
sense `Capabilities.init` can use it: the extension is reported by
`getSupportedExtensions` and `getExtension` enables it (returns non-null). -/
def GLContext.supports32BitElementIndex (gl : GLContext) : Bool :=
  gl.supportedExtensions.contains "OES_element_index_uint" &&
    gl.getExtensionOk.contains "OES_element_index_uint"

/-! ## Depth-buffer creation (`System.createDepthBuffer`) -/

/-- Which branch of the `switch (this.capabilities.maxDepthType)` in
`System.createDepthBuffer` executes, and what it produces. -/
inductive DepthBufferResult : Type where
  /-- `RenderBuffer.create(width, height)` -/
  | renderBuffer (w h : Nat)
  /-- `TextureHandle.createForAttachment(..., DepthComponent, UnsignedInt)` -/
  | depthTexture32 (w h : Nat)
  /-- `TextureHandle.createForAttachment(..., DepthStencil, UNSIGNED_INT_24_8_WEBGL)` -/
  | depthStencilTexture (w h : Nat)
  /-- the `default` branch: `assert(false); return undefined;` -/
  | assertFalseNone
deriving DecidableEq, Repr

/-- `System.createDepthBuffer(width, height)` as a function of
`capabilities.maxDepthType` (a TypeScript enum, i.e. a number, so the
`default` branch is reachable for values outside the declared members). -/
def System.createDepthBuffer (maxDepthType w h : Nat) : DepthBufferResult :=
  if maxDepthType = DepthType.RenderBufferUnsignedShort16 then .renderBuffer w h
  else if maxDepthType = DepthType.TextureUnsignedInt32 then .depthTexture32 w h
  else if maxDepthType = DepthType.TextureUnsignedInt24Stencil8 then .depthStencilTexture w h
  else .assertFalseNone

/-! ## IdMap: the per-connection resource cache

Embedding of `IdMap` and the resource classes it caches.  A JavaScript string
key is truthy exactly when it is present and non-empty, which is what the
guards `if (!params.key)` and `if (texture.key)` test. -/

/-- Truthiness of an optional string key, as JavaScript evaluates it:
`undefined` and the empty string are falsy. -/
def truthy : Option String → Bool
  | none => false
  | some s => !s.isEmpty

/-- `RenderMaterial.Params` as far as `IdMap` consults it: the optional cache
key. -/
structure MaterialParams : Type where
  key : Option String
deriving DecidableEq, Repr

/-- A `Material` instance: its key together with the serial number of the
`new Material(params)` construction that produced it (object identity). -/
structure Material : Type where
  key : Option String
  objId : Nat
deriving DecidableEq, Repr

/-- `RenderTexture.Params`: optional cache key, texture type, ownership flag. -/
structure TextureParams : Type where
  key : Option String
  ttype : Nat
  isOwned : Bool
deriving DecidableEq, Repr

/-- TypeScript `RenderTexture.Type.Normal` (first enum member). -/
def TextureType.Normal : Nat := 0

/-- A `Texture` instance: its params, the GPU handle it wraps, and the serial
number of its construction (object identity). -/
structure Texture : Type where
  params : TextureParams
  handle : Nat
  objId : Nat
deriving DecidableEq, Repr

/-- The key of a texture is the key of its creation params. -/
def Texture.key (t : Texture) : Option String := t.params.key

/-- Modelled from the spec: a gradient symbol (`Gradient.Symb`) is a
structured description of a color gradient; `fields` stands for its
structural content (mode, flags, keys, angle, ...) compared by
`Gradient.Symb.compareSymb`, while `ref` is the identity of the JavaScript
object holding it, which the comparator never consults. -/
structure GradientSymb : Type where
  fields : Nat × Nat × Nat
  ref : Nat
deriving DecidableEq, Repr

/-- Modelled from the spec: `Gradient.Symb.compareSymb` orders symbols by
their structural content only (two reference-distinct symbols with equal
field values compare equal). -/
def GradientSymb.compareSymb (a b : GradientSymb) : Ordering :=
  (compare a.fields.1 b.fields.1).then
    ((compare a.fields.2.1 b.fields.2.1).then (compare a.fields.2.2 b.fields.2.2))

/-- The boolean key-equivalence the gradients `Dictionary` derives from its
comparator. -/
def GradientSymb.structEq (a b : GradientSymb) : Bool :=
  a.compareSymb b == Ordering.eq

/-- A clipping volume: whether the mask-based (`true`) or plane-based
(`false`) construction produced it, and its construction serial number. -/
structure ClipVolume : Type where
  isMask : Bool
  objId : Nat
deriving DecidableEq, Repr

/-- An image buffer, as far as this code observes it: its dimensions. -/
structure ImageBuffer : Type where
  width : Nat
  height : Nat
deriving DecidableEq, Repr

/-- The GPU driver oracle: whether texture-handle allocation succeeds, and for
which clip vectors (named by reference id) the mask-based and plane-based
clip-volume constructions succeed. -/
structure GpuEnv : Type where
  allocOk : Bool
  maskOk : Nat → Bool
  planesOk : Nat → Bool

/-- `TextureHandle.createForImageBuffer(img, type)`: on success yields a fresh
handle (serial number) and records the allocation; on failure yields nothing
and leaves no trace.  The texture type is accepted but does not influence the
modelled outcome. -/
def TextureHandle.createForImageBuffer (gpu : GpuEnv) (img : ImageBuffer) (_ttype : Nat)
    (ctr : Nat) : Option Nat × Nat × List GLCall :=
  if gpu.allocOk then (some ctr, ctr + 1, [GLCall.allocTextureHandle img.width img.height ctr])
  else (none, ctr, [])

/-- Modelled from the spec: `ClipMaskVolume.create(clipVector)` attempts the
mask-based construction; success is decided by the oracle. -/
def ClipMaskVolume.create (gpu : GpuEnv) (cv : Nat) (ctr : Nat) : Option ClipVolume × Nat :=
  if gpu.maskOk cv then (some ⟨true, ctr⟩, ctr + 1) else (none, ctr)

/-- Modelled from the spec: `ClipPlanesVolume.create(clipVector)` attempts the
plane-based construction; success is decided by the oracle. -/
def ClipPlanesVolume.create (gpu : GpuEnv) (cv : Nat) (ctr : Nat) : Option ClipVolume × Nat :=
  if gpu.planesOk cv then (some ⟨false, ctr⟩, ctr + 1) else (none, ctr)

/-- The `IdMap` state: its four maps.  `clipVolumes` is a JavaScript `Map`
keyed by the `ClipVector` object itself, i.e. by reference, so its keys are
the reference ids of clip vectors. -/
structure IdMap : Type where
  materials : List (String × Material)
  textures : List (String × Texture)
  gradients : List (GradientSymb × Texture)
  clipVolumes : List (Nat × ClipVolume)
deriving DecidableEq, Repr

/-- `new IdMap()`: all four maps empty. -/
def IdMap.empty : IdMap := ⟨[], [], [], []⟩

/-- `IdMap.addTexture`: cache the texture only under a truthy key. -/
def IdMap.addTexture (m : IdMap) (t : Texture) : IdMap :=
  if truthy t.key then { m with textures := aset (t.key.getD "") t m.textures } else m

/-- `IdMap.addGradient`: cache the texture under the gradient symbol. -/
def IdMap.addGradient (m : IdMap) (g : GradientSymb) (t : Texture) : IdMap :=
  { m with gradients := dictSet GradientSymb.structEq g t m.gradients }

/-- `IdMap.findMaterial`. -/
def IdMap.findMaterial (m : IdMap) (key : String) : Option Material :=
  alookup key m.materials

/-- `IdMap.findTexture(key?)`: looks up only when a key (possibly empty) was
passed at all. -/
def IdMap.findTexture (m : IdMap) (key : Option String) : Option Texture :=
  match key with
  | some k => alookup k m.textures
  | none => none

/-- `IdMap.findGradient`. -/
def IdMap.findGradient (m : IdMap) (g : GradientSymb) : Option Texture :=
  dictLookup GradientSymb.structEq g m.gradients

/-- `IdMap.getMaterial(params)`: without a truthy key, construct an uncached
material; otherwise find the cached one or construct, cache and return a new
one.  Returns the material, the updated map and the updated construction
counter. -/
def IdMap.getMaterial (m : IdMap) (params : MaterialParams) (ctr : Nat) :
    Material × IdMap × Nat :=
  if !truthy params.key then (⟨params.key, ctr⟩, m, ctr + 1)
  else
    let k := params.key.getD ""
    match alookup k m.materials with
    | some mat => (mat, m, ctr)
    | none =>
      let mat : Material := ⟨params.key, ctr⟩
      (mat, { m with materials := aset k mat m.materials }, ctr + 1)

/-- `IdMap.createTexture(params, handle?)`: nothing without a handle;
otherwise wrap the handle in a new `Texture` and cache it via `addTexture`. -/
def IdMap.createTexture (m : IdMap) (params : TextureParams) (handle : Option Nat)
    (ctr : Nat) : Option Texture × IdMap × Nat :=
  match handle with
  | none => (none, m, ctr)
  | some h =>
    let t : Texture := ⟨params, h, ctr⟩
    (some t, m.addTexture t, ctr + 1)

/-- `IdMap.createTextureFromImageBuffer(img, params)`. -/
def IdMap.createTextureFromImageBuffer (m : IdMap) (gpu : GpuEnv) (img : ImageBuffer)
    (params : TextureParams) (ctr : Nat) : Option Texture × IdMap × Nat × List GLCall :=
  let r := TextureHandle.createForImageBuffer gpu img params.ttype ctr
  let c := m.createTexture params r.1 r.2.1
  (c.1, c.2.1, c.2.2, r.2.2)

/-- `IdMap.getTexture(img, params)`: the cached texture for the params' key,
or else an attempt to create (and cache) a new one. -/
def IdMap.getTexture (m : IdMap) (gpu : GpuEnv) (img : ImageBuffer) (params : TextureParams)
    (ctr : Nat) : Option Texture × IdMap × Nat × List GLCall :=
  match m.findTexture params.key with
  | some t => (some t, m, ctr, [])
  | none => m.createTextureFromImageBuffer gpu img params ctr

/-- `IdMap.getGradient(grad)`: the cached texture for a structurally equal
symbol, or else rasterize the gradient into a `0x100 × 0x100` image buffer,
attempt the handle, and on success wrap it in an unnamed owned texture cached
under the symbol. -/
def IdMap.getGradient (m : IdMap) (gpu : GpuEnv) (grad : GradientSymb) (ctr : Nat) :
    Option Texture × IdMap × Nat × List GLCall :=
  match dictLookup GradientSymb.structEq grad m.gradients with
  | some t => (some t, m, ctr, [])
  | none =>
    let image : ImageBuffer := ⟨0x100, 0x100⟩
    let rasterz : List GLCall := [GLCall.rasterizeGradient image.width image.height]
    let r := TextureHandle.createForImageBuffer gpu image TextureType.Normal ctr
    match r.1 with
    | none => (none, m, r.2.1, rasterz ++ r.2.2)
    | some h =>
      let params : TextureParams := ⟨none, TextureType.Normal, true⟩
      let t : Texture := ⟨params, h, r.2.1⟩
      (some t, m.addGradient grad t, r.2.1 + 1, rasterz ++ r.2.2)

/-- `IdMap.getClipVolume(clipVector)`: the cached volume for this clip vector
(by reference), or else the mask-based construction with a plane-based
fallback, cached when either succeeds. -/
def IdMap.getClipVolume (m : IdMap) (gpu : GpuEnv) (cv : Nat) (ctr : Nat) :
    Option ClipVolume × IdMap × Nat :=
  match alookup cv m.clipVolumes with
  | some v => (some v, m, ctr)
  | none =>
    let r1 := ClipMaskVolume.create gpu cv ctr
    match r1.1 with
    | some v => (some v, { m with clipVolumes := aset cv v m.clipVolumes }, r1.2)
    | none =>
      let r2 := ClipPlanesVolume.create gpu cv r1.2
      match r2.1 with
      | some v => (some v, { m with clipVolumes := aset cv v m.clipVolumes }, r2.2)
      | none => (none, m, r2.2)

/-- `IdMap.dispose()`: release every texture, gradient texture and clip
volume, then clear those three maps.  (The `materials` map is not touched by
the source.)  Returns the new state and the emitted release calls. -/
def IdMap.dispose (m : IdMap) : IdMap × List GLCall :=
  let calls : List GLCall :=
    m.textures.map (fun p => GLCall.disposeResource p.2.objId) ++
      m.gradients.map (fun p => GLCall.disposeResource p.2.objId) ++
      m.clipVolumes.map (fun p => GLCall.disposeResource p.2.objId)
  ({ m with textures := [], gradients := [], clipVolumes := [] }, calls)

/-! ## System: texture-unit binding table -/

/-- `TextureUnit.Zero` (`gl.TEXTURE0`). -/
def TextureUnit.Zero : Nat := 0x84C0

/-- `GL.Texture.Target.TwoDee` (`gl.TEXTURE_2D`). -/
def TextureTarget.TwoDee : Nat := 0x0DE1
/-- `GL.Texture.Target.CubeMap` (`gl.TEXTURE_CUBE_MAP`). -/
def TextureTarget.CubeMap : Nat := 0x8513

/-- The `_textureBindings` array: what each unit slot currently holds.  A slot
reads as `none` both when never written and when `undefined` was stored,
matching the `===` comparison against a sparse JavaScript array. -/
def TextureBindings : Type := Nat → Option Nat

/-- `System.bindTexture(unit, target, texture)`: skip the driver entirely when
the slot already holds the requested binding, otherwise record it and issue
`activeTexture` followed by one `bindTexture` driver call. -/
def System.bindTexture (b : TextureBindings) (unit target : Nat) (texture : Option Nat) :
    TextureBindings × List GLCall :=
  let index := unit - TextureUnit.Zero
  if b index = texture then (b, [])
  else (fun j => if j = index then texture else b j,
    [GLCall.activeTexture unit, GLCall.bindTexture target texture])

/-- `System.bindTexture2d`. -/
def System.bindTexture2d (b : TextureBindings) (unit : Nat) (texture : Option Nat) :
    TextureBindings × List GLCall :=
  System.bindTexture b unit TextureTarget.TwoDee texture

/-- `System.bindTextureCubeMap`. -/
def System.bindTextureCubeMap (b : TextureBindings) (unit : Nat) (texture : Option Nat) :
    TextureBindings × List GLCall :=
  System.bindTexture b unit TextureTarget.CubeMap texture

/-- The number of driver texture-bind calls (`context.bindTexture`) in a
trace. -/
def countBindCalls (calls : List GLCall) : Nat :=
  (calls.filter (fun c => match c with | GLCall.bindTexture _ _ => true | _ => false)).length

/-! ## System: vertex-attribute state reconciliation -/

/-- `const enum VertexAttribState` member `Disabled`. -/
def VertexAttribState.Disabled : Nat := 0
/-- `const enum VertexAttribState` member `Enabled` (`1 << 0`). -/
def VertexAttribState.Enabled : Nat := 1
/-- `const enum VertexAttribState` member `Instanced` (`1 << 2`). -/
def VertexAttribState.Instanced : Nat := 4
/-- `const enum VertexAttribState` member `InstancedEnabled`
(`Instanced | Enabled`). -/
def VertexAttribState.InstancedEnabled : Nat := 5

/-- `next[i] &= ~VertexAttribState.Enabled`: clear bit 0, keep the rest. -/
def clearEnabledBit (s : Nat) : Nat := 2 * (s / 2)

/-- The test `0 !== (VertexAttribState.Enabled & state)`: bit 0 of the state,
written arithmetically (`1 & s` is `s % 2`). -/
def hasEnabledBit (s : Nat) : Bool := s % 2 = 1

/-- The test `0 !== (VertexAttribState.Instanced & state)`: bit 2 of the
state, written arithmetically (`4 & s` is `4 * (s / 4 % 2)`). -/
def hasInstancedBit (s : Nat) : Bool := s / 4 % 2 = 1

/-- One iteration of the loop body of `System.updateVertexAttribArrays` for
slot `i` with current state `c` and requested state `n`: the new current
entry, the new next entry, and the driver calls issued, in order. -/
def updateSlot (i c n : Nat) : Nat × Nat × List GLCall :=
  if c = n then (c, clearEnabledBit n, [])
  else
    let enCalls : List GLCall :=
      if hasEnabledBit c = hasEnabledBit n then []
      else if hasEnabledBit n then [GLCall.enableVertexAttribArray i]
      else [GLCall.disableVertexAttribArray i]
    let divCalls : List GLCall :=
      if hasEnabledBit n && !(hasInstancedBit c == hasInstancedBit n) then
        [GLCall.vertexAttribDivisor i (if hasInstancedBit n then 1 else 0)]
      else []
    (n, clearEnabledBit n, enCalls ++ divCalls)

/-- The loop of `System.updateVertexAttribArrays` over the two equally long
state arrays, starting at slot `i`. -/
def updateVertexAttribArraysAux (i : Nat) :
    List Nat → List Nat → List Nat × List Nat × List GLCall
  | c :: cs, n :: ns =>
    let s := updateSlot i c n
    let rest := updateVertexAttribArraysAux (i + 1) cs ns
    (s.1 :: rest.1, s.2.1 :: rest.2.1, s.2.2 ++ rest.2.2)
  | cs, ns => (cs, ns, [])

/-- `System.updateVertexAttribArrays()`: reconcile `_curVertexAttribStates`
against `_nextVertexAttribStates`, returning the two updated arrays and the
driver calls issued. -/
def System.updateVertexAttribArrays (cur next : List Nat) :
    List Nat × List Nat × List GLCall :=
  updateVertexAttribArraysAux 0 cur next

/-- `System.enableVertexAttribArray(id, instanced)`: record intent in the
next-state array only. -/
def System.enableVertexAttribArray (next : List Nat) (id : Nat) (instanced : Bool) :
    List Nat :=
  next.set id (if instanced then VertexAttribState.InstancedEnabled
    else VertexAttribState.Enabled)

/-- The initial `_curVertexAttribStates` / `_nextVertexAttribStates` arrays:
twelve disabled slots. -/
def initialVertexAttribStates : List Nat := List.replicate 12 VertexAttribState.Disabled

/-! ## System: the connection-close listener

Modelled from the spec: `IModelConnection.onClose` is a `BeEvent` holding the
subscribed listener functions in order; `addListener` appends a listener and
`removeListener` removes the listeners that are (by JavaScript `===`
identity) the very function passed.  Function identities are modelled as
serial numbers; `Function.prototype.bind` allocates a fresh function object,
so the identity registered by the `System` constructor
(`this.removeIModelMap.bind(this)`) is distinct from the identity of the
unbound method `this.removeIModelMap` that `System.dispose` passes to
`removeListener`. -/

/-- Modelled from the spec: the listener list of the
`IModelConnection.onClose` event, each listener named by its function-object
identity. -/
structure BeEvent : Type where
  listeners : List Nat
deriving DecidableEq, Repr

/-- Modelled from the spec: `BeEvent.addListener` appends the listener. -/
def BeEvent.addListener (e : BeEvent) (fid : Nat) : BeEvent :=
  ⟨e.listeners ++ [fid]⟩

/-- Modelled from the spec: `BeEvent.removeListener` drops exactly the
listeners identical (`===`) to the one passed. -/
def BeEvent.removeListener (e : BeEvent) (fid : Nat) : BeEvent :=
  ⟨e.listeners.filter (fun l => l ≠ fid)⟩

/-- The listener-related fields of a constructed `System`: the identity of
the prototype method `System.removeIModelMap` and the identity of the bound
closure the constructor registered. -/
structure SystemListeners : Type where
  removeIModelMapMethodId : Nat
  boundListenerId : Nat
deriving DecidableEq, Repr

/-- The listener subscription performed by the `System` constructor:
`IModelConnection.onClose.addListener(this.removeIModelMap.bind(this))`.
`.bind` yields a fresh function object, whose identity is drawn from the
counter. -/
def System.constructListeners (methodId : Nat) (onClose : BeEvent) (ctr : Nat) :
    SystemListeners × BeEvent × Nat :=
  let bound := ctr
  (⟨methodId, bound⟩, onClose.addListener bound, ctr + 1)

/-- The listener removal performed by `System.dispose()`:
`IModelConnection.onClose.removeListener(this.removeIModelMap)` — note it
passes the unbound method, not the bound closure that was registered. -/
def System.disposeListeners (s : SystemListeners) (onClose : BeEvent) : BeEvent :=
  onClose.removeListener s.removeIModelMapMethodId

/-! ## Sheet-tile tessellation (`System.createSheetTilePolyfaces`)

Coordinates are exact rationals.  The geometry-core collaborators that are
not part of the rendering source (`Range3d.createArray`,
`ClipUtilities.clipPolygonToClipShape`, `PolyfaceBuilder`, `Triangulator`)
are modelled from the spec as noted on each definition. -/

/-- A 3d point (`Point3d`), with exact rational coordinates. -/
structure Point3d : Type where
  x : ℚ
  y : ℚ
  z : ℚ
deriving DecidableEq, Repr

/-- A 2d point (`Point2d`), used for UV parameters. -/
structure Point2d : Type where
  x : ℚ
  y : ℚ
deriving DecidableEq, Repr

/-- A 3d range (`Range3d`): componentwise low and high corners. -/
structure Range3d : Type where
  low : Point3d
  high : Point3d
deriving DecidableEq, Repr

/-- Modelled from the spec: `Range3d.createArray` computes the tile's own
bounding range, the componentwise minimum and maximum of the points. -/
def Range3d.createArray : List Point3d → Range3d
  | [] => ⟨⟨0, 0, 0⟩, ⟨0, 0, 0⟩⟩
  | p :: ps =>
    ps.foldl
      (fun r q =>
        ⟨⟨min r.low.x q.x, min r.low.y q.y, min r.low.z q.z⟩,
          ⟨max r.high.x q.x, max r.high.y q.y, max r.high.z q.z⟩⟩)
      ⟨p, p⟩

/-- Modelled from the spec: a clip shape, a convex planar polygon given by its
vertices in counter-clockwise order in the xy-plane. -/
structure ClipShape : Type where
  points : List Point2d
deriving DecidableEq, Repr

/-- Modelled from the spec: a `ClipVector` holds a list of clip shapes; the
tessellator uses only `clip.clips[0]`. -/
structure ClipVector : Type where
  clips : List ClipShape
deriving DecidableEq, Repr

/-- Consecutive cyclic pairs `(p_i, p_{i+1})` of a list. -/
def cyclicPairs {α : Type} : List α → List (α × α)
  | [] => []
  | x :: xs => (x :: xs).zip (xs ++ [x])

/-- Signed area test: positive when `p` lies to the left of the directed clip
edge from `a` to `b` (the interior side for a counter-clockwise clip
polygon). -/
def sideOf (a b : Point2d) (p : Point3d) : ℚ :=
  (b.x - a.x) * (p.y - a.y) - (b.y - a.y) * (p.x - a.x)

/-- Linear interpolation from `p` towards `q`. -/
def interpPoint (p q : Point3d) (t : ℚ) : Point3d :=
  ⟨p.x + t * (q.x - p.x), p.y + t * (q.y - p.y), p.z + t * (q.z - p.z)⟩

/-- The crossing point of segment `s`–`e` with the clip edge, from the two
signed sides. -/
def edgeCrossing (s e : Point3d) (ss se : ℚ) : Point3d :=
  interpPoint s e (ss / (ss - se))

/-- Modelled from the spec: one Sutherland–Hodgman step, clipping a polygon
against the half-plane on the interior side of the directed edge `a`–`b`. -/
def clipEdgeHalfPlane (a b : Point2d) (poly : List Point3d) : List Point3d :=
  ((cyclicPairs poly).map (fun se =>
    let s := se.1
    let e := se.2
    let ss := sideOf a b s
    let se := sideOf a b e
    if 0 ≤ se then
      (if 0 ≤ ss then [e] else [edgeCrossing s e ss se, e])
    else if 0 ≤ ss then [edgeCrossing s e ss se]
    else [])).flatten

/-- Modelled from the spec: `ClipUtilities.clipPolygonToClipShape` clips the
polygon against the convex clip shape, returning the clipped polygons (none
when the intersection is empty, one for a convex clip). -/
def ClipUtilities.clipPolygonToClipShape (poly : List Point3d) (shape : ClipShape) :
    List (List Point3d) :=
  let clipped := (cyclicPairs shape.points).foldl
    (fun acc ab => clipEdgeHalfPlane ab.1 ab.2 acc) poly
  if clipped.isEmpty then [] else [clipped]

/-- A facet of a polyface under construction: its points and their per-vertex
UV parameters, in matching order. -/
structure Facet : Type where
  points : List Point3d
  params : List Point2d
deriving DecidableEq, Repr

/-- Modelled from the spec: an `IndexedPolyface` built by a `PolyfaceBuilder`
with `needParams`, observed as its list of facets (`addTriangleFacet` and
`addQuadFacet` each append one facet). -/
structure IndexedPolyface : Type where
  facets : List Facet
deriving DecidableEq, Repr

/-- The UV parameters of a polygon's points: `(point - sheetTileOrigin)`
scaled by `sheetTileScale`, exactly as the loop bodies compute them. -/
def sheetParamsOf (origin : Point3d) (scale : ℚ) (pts : List Point3d) : List Point2d :=
  pts.map (fun p => ⟨(p.x - origin.x) * scale, (p.y - origin.y) * scale⟩)

/-- Modelled from the spec: the triangulation of a polygon of more than four
vertices (`Triangulator.createTriangulatedGraphFromSingleLoop` followed by
the interior-face traversal), modelled as a fan from the first vertex. -/
def fanTriangles : List Point3d → List (List Point3d)
  | p0 :: p1 :: p2 :: rest =>
    (cyclicPairs (p1 :: p2 :: rest)).dropLast.map (fun ab => [p0, ab.1, ab.2])
  | _ => []

/-- `System.createSheetTilePolyfaces(corners, clip?)`: compute the tile range,
scale and origin, clip the corners when a clip is present, and stitch the
clipped polygons into one polyface — triangles and quads directly, larger
polygons through triangulation (whose emitted points carry `z = 0.5`, as in
the source). -/
def System.createSheetTilePolyfaces (corners : List Point3d) (clip : Option ClipVector) :
    List IndexedPolyface :=
  let sheetTileRange := Range3d.createArray corners
  let sheetTileScale := 1 / (sheetTileRange.high.x - sheetTileRange.low.x)
  let sheetTileOrigin := sheetTileRange.low
  let clippedPolygons : List (List Point3d) :=
    match clip with
    | some c => ClipUtilities.clipPolygonToClipShape corners (c.clips.headD ⟨[]⟩)
    | none => [corners]
  if clippedPolygons.isEmpty then []
  else
    let facets : List Facet :=
      (clippedPolygons.map (fun polygon =>
        if polygon.length < 3 then []
        else if polygon.length = 3 ∨ polygon.length = 4 then
          [⟨polygon, sheetParamsOf sheetTileOrigin sheetTileScale polygon⟩]
        else
          (fanTriangles (polygon.map (fun p => ⟨p.x, p.y, 1/2⟩))).map
            (fun tri => ⟨tri, sheetParamsOf sheetTileOrigin sheetTileScale tri⟩))).flatten
    [⟨facets⟩]

/-! ## Concrete fixtures used by witnesses and counterexamples -/

/-- A context passing every probe gate: 32-bit element indices enabled, 8
fragment and 8 vertex texture units, plus a depth texture extension. -/
def glProbeSuccess : GLContext :=
  ⟨4096, 8, 8, 16, 256, 8, 256,
    ["OES_element_index_uint", "WEBGL_depth_texture"],
    ["OES_element_index_uint", "WEBGL_depth_texture"],
    false, false, 4, 4⟩

/-- A context with generous limits and many extensions but no
`OES_element_index_uint`: every other capability is present. -/
def glProbeNo32Bit : GLContext :=
  ⟨16384, 32, 32, 32, 1024, 32, 1024,
    ["WEBGL_draw_buffers", "OES_texture_float", "OES_texture_half_float",
      "WEBGL_depth_texture", "EXT_shader_texture_lod", "ANGLE_instanced_arrays"],
    ["WEBGL_draw_buffers", "OES_texture_float", "OES_texture_half_float",
      "WEBGL_depth_texture", "EXT_shader_texture_lod", "ANGLE_instanced_arrays"],
    true, true, 8, 8⟩

/-- A GPU oracle on which every construction succeeds. -/
def gpuOk : GpuEnv := ⟨true, fun _ => true, fun _ => true⟩

/-- A GPU oracle on which texture-handle allocation fails (and clip-volume
construction too). -/
def gpuFail : GpuEnv := ⟨false, fun _ => false, fun _ => false⟩

/-- The current-state array after a first cycle that requested `Enabled@0`:
the reconciled current state `[Enabled@0]`. -/
def vasCur1 : List Nat :=
  (System.updateVertexAttribArrays initialVertexAttribStates
    (System.enableVertexAttribArray initialVertexAttribStates 0 false)).1

/-- The next-state array left by that first cycle. -/
def vasNext1 : List Nat :=
  (System.updateVertexAttribArrays initialVertexAttribStates
    (System.enableVertexAttribArray initialVertexAttribStates 0 false)).2.1

/-- The next-state array of the second cycle, requesting `Enabled@0` and
`InstancedEnabled@1` through `enableVertexAttribArray`. -/
def vasNext2 : List Nat :=
  System.enableVertexAttribArray (System.enableVertexAttribArray vasNext1 0 false) 1 true

/-- The corners of a 2×1 (non-square) axis-aligned rectangle, in
counter-clockwise order from the low corner. -/
def rectCorners : List Point3d := [⟨0, 0, 0⟩, ⟨2, 0, 0⟩, ⟨2, 1, 0⟩, ⟨0, 1, 0⟩]

/-- The corners of the unit square, in counter-clockwise order from the low
corner. -/
def unitSquareCorners : List Point3d := [⟨0, 0, 0⟩, ⟨1, 0, 0⟩, ⟨1, 1, 0⟩, ⟨0, 1, 0⟩]

/-- The centered 50% shrink of the unit square, as a clip vector with one
clip shape. -/
def unitSquareShrink50 : ClipVector :=
  ⟨[⟨[⟨1/4, 1/4⟩, ⟨3/4, 1/4⟩, ⟨3/4, 3/4⟩, ⟨1/4, 3/4⟩]⟩]⟩

/-- An `IdMap` reached by caching one keyed material in a fresh map. -/
def idMapWithMaterial : IdMap := (IdMap.getMaterial IdMap.empty ⟨some "mat0"⟩ 0).2.1

/-- A gradient symbol. -/
def gradA : GradientSymb := ⟨(1, 2, 3), 10⟩

/-- A gradient symbol structurally equal to `gradA` but reference-distinct
(different object identity, same field values). -/
def gradA' : GradientSymb := ⟨(1, 2, 3), 11⟩

/-- A gradient symbol structurally distinct from `gradA`. -/
def gradB : GradientSymb := ⟨(4, 5, 6), 12⟩

/-! ## Helper lemmas -/

theorem alookup_aset_self {α β : Type} [DecidableEq α] (k : α) (v : β) (l : List (α × β)) :
    alookup k (aset k v l) = some v := by
  induction l with
  | nil => simp [aset, alookup]
  | cons hd tl ih =>
    rcases hd with ⟨k', v'⟩
    by_cases h : k' = k
    · simp [aset, alookup, h]
    · simp [aset, alookup, h, ih]

theorem GradientSymb.structEq_iff (a b : GradientSymb) :
    a.structEq b = true ↔ a.fields = b.fields := by
  rcases a with ⟨⟨a1, a2, a3⟩, ar⟩
  rcases b with ⟨⟨b1, b2, b3⟩, br⟩
  have h : ∀ o : Ordering, (o == Ordering.eq) = true ↔ o = Ordering.eq := by
    intro o; cases o <;> simp <;> decide
  simp only [GradientSymb.structEq, GradientSymb.compareSymb]
  rw [h]
  simp [Ordering.then_eq_eq, Nat.compare_eq_eq, Prod.mk.injEq]

theorem GradientSymb.structEq_eq_decide (a b : GradientSymb) :
    a.structEq b = decide (a.fields = b.fields) := by
  by_cases h : a.fields = b.fields
  · simp [h, (GradientSymb.structEq_iff a b).mpr h]
  · simp only [h, decide_eq_false_iff_not.mpr h]
    exact Bool.eq_false_iff.mpr (fun hc => h ((GradientSymb.structEq_iff a b).mp hc))

theorem dictLookup_structEq_congr {β : Type} (g g' : GradientSymb)
    (h : g.fields = g'.fields) (l : List (GradientSymb × β)) :
    dictLookup GradientSymb.structEq g l = dictLookup GradientSymb.structEq g' l := by
  induction l with
  | nil => rfl
  | cons hd tl ih =>
    rcases hd with ⟨k, v⟩
    simp [dictLookup, GradientSymb.structEq_eq_decide, h, ih]

theorem dictLookup_dictSet_structEq {β : Type} (g g' : GradientSymb) (v : β)
    (h : g.fields = g'.fields) (l : List (GradientSymb × β)) :
    dictLookup GradientSymb.structEq g' (dictSet GradientSymb.structEq g v l) = some v := by
  induction l with
  | nil => simp [dictSet, dictLookup, GradientSymb.structEq_eq_decide, h]
  | cons hd tl ih =>
    rcases hd with ⟨k, v'⟩
    by_cases hk : k.fields = g.fields
    · have hk' : k.structEq g = true := (GradientSymb.structEq_iff k g).mpr hk
      simp [dictSet, dictLookup, hk', GradientSymb.structEq_eq_decide, h]
    · have hk2 : ¬ k.fields = g'.fields := fun hc => hk (hc.trans h.symm)
      simp [dictSet, dictLookup, GradientSymb.structEq_eq_decide, hk, hk2, ih]

theorem dictLookup_dictSet_structNe {β : Type} (g g' : GradientSymb) (v : β)
    (h : ¬ g.fields = g'.fields) (l : List (GradientSymb × β)) :
    dictLookup GradientSymb.structEq g' (dictSet GradientSymb.structEq g v l) =
      dictLookup GradientSymb.structEq g' l := by
  induction l with
  | nil => simp [dictSet, dictLookup, GradientSymb.structEq_eq_decide, h]
  | cons hd tl ih =>
    rcases hd with ⟨k, v'⟩
    by_cases hk : k.fields = g.fields
    · have hk2 : ¬ k.fields = g'.fields := fun hc => h (hk.symm.trans hc)
      simp [dictSet, dictLookup, GradientSymb.structEq_eq_decide, hk, hk2, h]
    · simp [dictSet, dictLookup, GradientSymb.structEq_eq_decide, hk, ih]

theorem hasEnabledBit_clearEnabledBit (n : Nat) :
    hasEnabledBit (clearEnabledBit n) = false := by
  simp only [hasEnabledBit, clearEnabledBit, decide_eq_false_iff_not]
  omega

theorem hasInstancedBit_clearEnabledBit (n : Nat) :
    hasInstancedBit (clearEnabledBit n) = hasInstancedBit n := by
  simp only [hasInstancedBit, clearEnabledBit, decide_eq_decide]
  omega

theorem updateSlot_fst (i c n : Nat) : (updateSlot i c n).1 = n := by
  unfold updateSlot
  by_cases h : c = n <;> simp [h]

theorem updateVertexAttribArraysAux_fst (cur : List Nat) :
    ∀ (i : Nat) (next : List Nat), cur.length = next.length →
      (updateVertexAttribArraysAux i cur next).1 = next := by
  induction cur with
  | nil =>
    intro i next h
    cases next with
    | nil => rfl
    | cons n ns => simp at h
  | cons c cs ih =>
    intro i next h
    cases next with
    | nil => simp at h
    | cons n ns =>
      simp only [updateVertexAttribArraysAux]
      simp only [List.length_cons, Nat.add_right_cancel_iff] at h
      simp [updateSlot_fst, ih (i + 1) ns h]

theorem updateVertexAttribArraysAux_snd (cur : List Nat) :
    ∀ (i : Nat) (next : List Nat), cur.length = next.length →
      (updateVertexAttribArraysAux i cur next).2.1 = next.map clearEnabledBit := by
  induction cur with
  | nil =>
    intro i next h
    cases next with
    | nil => rfl
    | cons n ns => simp at h
  | cons c cs ih =>
    intro i next h
    cases next with
    | nil => simp at h
    | cons n ns =>
      simp only [updateVertexAttribArraysAux, List.map_cons]
      simp only [List.length_cons, Nat.add_right_cancel_iff] at h
      have hhd : (updateSlot i c n).2.1 = clearEnabledBit n := by
        unfold updateSlot
        by_cases hc : c = n <;> simp [hc]
      rw [hhd, ih (i + 1) ns h]

/-! ## Claim theorems -/

/-- C3: the Capabilities probe returns a usable `Capabilities` object if and
only if the context supports the 32-bit element index extension
(`OES_element_index_uint`) and reports more than 4 fragment and more than 5
vertex texture units; in particular, for every context lacking 32-bit element
index support the probe fails regardless of all other limits and
extensions. -/
theorem capabilities_probe_gate (gl : GLContext) :
    ((Capabilities.create gl).isSome = true ↔
      (gl.supports32BitElementIndex = true ∧
        4 < gl.maxFragTextureUnits ∧ 5 < gl.maxVertTextureUnits)) ∧
    (gl.supports32BitElementIndex = false → Capabilities.create gl = none) := by
  have hmain : (Capabilities.create gl).isSome = true ↔
      (gl.supports32BitElementIndex = true ∧
        4 < gl.maxFragTextureUnits ∧ 5 < gl.maxVertTextureUnits) := by
    simp [Capabilities.create, Capabilities.init, Capabilities.hasRequiredFeatures,
      Capabilities.supports32BitElementIndex, Capabilities.queryExtensionObject,
      Capabilities.hasRequiredTextureUnits, GLContext.supports32BitElementIndex,
      extensionRequested, forceNoDrawBuffers, forceHalfFloat, apply_ite Option.isSome,
      and_assoc]
  refine ⟨hmain, fun h => ?_⟩
  cases hc : Capabilities.create gl with
  | none => rfl
  | some c =>
    have hs := hmain.mp (by rw [hc]; rfl)
    rw [h] at hs
    exact absurd hs.1 (by simp)

/-- Witness for C3 at concrete contexts: the probe succeeds on
`glProbeSuccess` and fails on `glProbeNo32Bit`, which lacks only the 32-bit
element index extension. -/
theorem capabilities_probe_gate_witness :
    (Capabilities.create glProbeSuccess).isSome = true ∧
      Capabilities.create glProbeNo32Bit = none :=
  ⟨(capabilities_probe_gate glProbeSuccess).1.mpr ⟨by decide, by decide, by decide⟩,
    (capabilities_probe_gate glProbeNo32Bit).2 (by decide)⟩

/-- C10: every `Capabilities` snapshot built by a successful probe has
`maxDepthType` equal to `RenderBufferUnsignedShort16` or
`TextureUnsignedInt24Stencil8`, so `createDepthBuffer` on such a snapshot
takes the render-buffer or depth-stencil branch and never reaches the
`TextureUnsignedInt32` case nor the `assert(false)` default branch. -/
theorem successful_probe_depth_type (gl : GLContext) (w h : Nat) :
    (Capabilities.init gl).2 = true →
      ((Capabilities.init gl).1.maxDepthType = DepthType.RenderBufferUnsignedShort16 ∨
        (Capabilities.init gl).1.maxDepthType = DepthType.TextureUnsignedInt24Stencil8) ∧
      (System.createDepthBuffer (Capabilities.init gl).1.maxDepthType w h =
          DepthBufferResult.renderBuffer w h ∨
        System.createDepthBuffer (Capabilities.init gl).1.maxDepthType w h =
          DepthBufferResult.depthStencilTexture w h) ∧
      System.createDepthBuffer (Capabilities.init gl).1.maxDepthType w h ≠
        DepthBufferResult.depthTexture32 w h ∧
      System.createDepthBuffer (Capabilities.init gl).1.maxDepthType w h ≠
        DepthBufferResult.assertFalseNone := by
  intro _
  have hdt : (Capabilities.init gl).1.maxDepthType = DepthType.RenderBufferUnsignedShort16 ∨
      (Capabilities.init gl).1.maxDepthType = DepthType.TextureUnsignedInt24Stencil8 := by
    simp only [Capabilities.init]
    by_cases hc :
        (List.filter (fun e => extensionRequested e && gl.getExtensionOk.contains e)
          gl.supportedExtensions).contains "WEBGL_depth_texture" = true
    · simp only [hc, if_true]
      simp [DepthType.RenderBufferUnsignedShort16, DepthType.TextureUnsignedInt24Stencil8]
    · simp only [if_neg hc]
      simp [DepthType.RenderBufferUnsignedShort16, DepthType.TextureUnsignedInt24Stencil8]
  rcases hdt with hdt | hdt <;>
    rw [hdt] <;>
    simp [System.createDepthBuffer, DepthType.RenderBufferUnsignedShort16,
      DepthType.TextureUnsignedInt24Stencil8, DepthType.TextureUnsignedInt32]

/-- Witness for C10: the successful probe on `glProbeSuccess` yields a depth
type whose `createDepthBuffer` takes a safe branch at a concrete size. -/
theorem successful_probe_depth_type_witness :
    ((Capabilities.init glProbeSuccess).1.maxDepthType = DepthType.RenderBufferUnsignedShort16 ∨
      (Capabilities.init glProbeSuccess).1.maxDepthType = DepthType.TextureUnsignedInt24Stencil8) ∧
    (System.createDepthBuffer (Capabilities.init glProbeSuccess).1.maxDepthType 128 256 =
        DepthBufferResult.renderBuffer 128 256 ∨
      System.createDepthBuffer (Capabilities.init glProbeSuccess).1.maxDepthType 128 256 =
        DepthBufferResult.depthStencilTexture 128 256) ∧
    System.createDepthBuffer (Capabilities.init glProbeSuccess).1.maxDepthType 128 256 ≠
      DepthBufferResult.depthTexture32 128 256 ∧
    System.createDepthBuffer (Capabilities.init glProbeSuccess).1.maxDepthType 128 256 ≠
      DepthBufferResult.assertFalseNone :=
  successful_probe_depth_type glProbeSuccess 128 256 (by decide)

/-- C1: requesting a material, a texture, or a clip volume twice with equal
keys from the same IdMap returns the identical cached instance both times —
the second call performs no construction (the counter is unchanged) and does
not modify the cache — and, starting from a key not yet cached, the pair of
calls constructs exactly one underlying resource (for textures: exactly one
GPU handle allocation appears in the trace of the first call). -/
theorem idMap_double_request_caching :
    (∀ (m : IdMap) (params : MaterialParams) (ctr : Nat),
      truthy params.key = true →
      IdMap.getMaterial (m.getMaterial params ctr).2.1 params (m.getMaterial params ctr).2.2
          = m.getMaterial params ctr ∧
      (alookup (params.key.getD "") m.materials = none →
        (m.getMaterial params ctr).2.2 = ctr + 1)) ∧
    (∀ (m : IdMap) (gpu : GpuEnv) (img img' : ImageBuffer) (params : TextureParams)
      (ctr : Nat) (k : String),
      params.key = some k → k.isEmpty = false → gpu.allocOk = true →
      alookup k m.textures = none →
      (m.getTexture gpu img params ctr).1.isSome = true ∧
      (m.getTexture gpu img params ctr).2.2.2
          = [GLCall.allocTextureHandle img.width img.height ctr] ∧
      IdMap.getTexture (m.getTexture gpu img params ctr).2.1 gpu img' params
          (m.getTexture gpu img params ctr).2.2.1
        = ((m.getTexture gpu img params ctr).1, (m.getTexture gpu img params ctr).2.1,
            (m.getTexture gpu img params ctr).2.2.1, [])) ∧
    (∀ (m : IdMap) (gpu : GpuEnv) (cv ctr : Nat),
      (gpu.maskOk cv || gpu.planesOk cv) = true →
      (m.getClipVolume gpu cv ctr).1.isSome = true ∧
      IdMap.getClipVolume (m.getClipVolume gpu cv ctr).2.1 gpu cv
          (m.getClipVolume gpu cv ctr).2.2
        = m.getClipVolume gpu cv ctr ∧
      (alookup cv m.clipVolumes = none → (m.getClipVolume gpu cv ctr).2.2 = ctr + 1)) := by
  refine ⟨?_, ?_, ?_⟩
  · intro m params ctr htr
    obtain ⟨k, hk⟩ : ∃ k, params.key = some k := by
      cases hp : params.key with
      | none => rw [hp] at htr; simp [truthy] at htr
      | some s => exact ⟨s, rfl⟩
    have htr' : truthy (some k) = true := hk ▸ htr
    constructor
    · cases hl : alookup k m.materials with
      | some mat => simp [IdMap.getMaterial, hk, htr', hl]
      | none => simp [IdMap.getMaterial, hk, htr', hl, alookup_aset_self]
    · intro hnone
      have hnone' : alookup k m.materials = none := by simpa [hk] using hnone
      simp [IdMap.getMaterial, hk, htr', hnone']
  · intro m gpu img img' params ctr k hk hke halloc hnone
    have htr' : truthy (some k) = true := by simp [truthy, hke]
    have hfind : m.findTexture params.key = none := by simp [IdMap.findTexture, hk, hnone]
    refine ⟨?_, ?_, ?_⟩ <;>
      simp [IdMap.getTexture, hfind, IdMap.createTextureFromImageBuffer,
        TextureHandle.createForImageBuffer, halloc, IdMap.createTexture, IdMap.addTexture,
        Texture.key, htr', hk, hnone, IdMap.findTexture, alookup_aset_self]
  · intro m gpu cv ctr hok
    cases hl : alookup cv m.clipVolumes with
    | some v =>
      refine ⟨by simp [IdMap.getClipVolume, hl], by simp [IdMap.getClipVolume, hl], ?_⟩
      intro h
      exact absurd h (by simp)
    | none =>
      by_cases hm : gpu.maskOk cv = true
      · refine ⟨?_, ?_, ?_⟩ <;>
          simp [IdMap.getClipVolume, hl, ClipMaskVolume.create, hm, alookup_aset_self]
      · have hm' : gpu.maskOk cv = false := by
          cases h : gpu.maskOk cv
          · rfl
          · exact absurd h hm
        have hp : gpu.planesOk cv = true := by
          rw [hm'] at hok
          simpa using hok
        refine ⟨?_, ?_, ?_⟩ <;>
          simp [IdMap.getClipVolume, hl, ClipMaskVolume.create, hm',
            ClipPlanesVolume.create, hp, alookup_aset_self]

/-- Witness for C1 at concrete inputs: a fresh IdMap, the always-succeeding
GPU oracle, key `"m"` for the material, key `"t"` for the texture and clip
vector `7`; each hypothesis of the theorem is discharged concretely. -/
theorem idMap_double_request_caching_witness :
    truthy (some "m") = true ∧
    IdMap.getMaterial (IdMap.getMaterial IdMap.empty ⟨some "m"⟩ 0).2.1 ⟨some "m"⟩
        (IdMap.getMaterial IdMap.empty ⟨some "m"⟩ 0).2.2
      = IdMap.getMaterial IdMap.empty ⟨some "m"⟩ 0 ∧
    gpuOk.allocOk = true ∧
    (IdMap.getTexture IdMap.empty gpuOk ⟨4, 4⟩ ⟨some "t", 0, false⟩ 0).1.isSome = true ∧
    (gpuOk.maskOk 7 || gpuOk.planesOk 7) = true ∧
    (IdMap.getClipVolume IdMap.empty gpuOk 7 0).1.isSome = true :=
  ⟨by decide,
    (idMap_double_request_caching.1 IdMap.empty ⟨some "m"⟩ 0 (by decide)).1,
    rfl,
    (idMap_double_request_caching.2.1 IdMap.empty gpuOk ⟨4, 4⟩ ⟨4, 4⟩ ⟨some "t", 0, false⟩ 0
      "t" rfl rfl rfl rfl).1,
    rfl,
    (idMap_double_request_caching.2.2 IdMap.empty gpuOk 7 0 rfl).1⟩

/-- C2 counterexample: disposing an IdMap that caches one keyed material does
not leave the materials map empty — `dispose` never touches `materials` — so
the claim that dispose empties all four maps fails. -/
theorem idMap_dispose_materials_not_cleared :
    ¬ ((IdMap.dispose idMapWithMaterial).1.materials = []) := by decide

/-- C2 (amended): `dispose` releases each resource held in the textures,
gradients and clip-volumes maps (one release call per entry) and leaves those
three maps empty, while the materials map is left unchanged; disposing the
already-disposed IdMap is a no-op that changes nothing and emits no release
calls. -/
theorem idMap_dispose_amended (m : IdMap) :
    (m.dispose).1.textures = [] ∧ (m.dispose).1.gradients = [] ∧
      (m.dispose).1.clipVolumes = [] ∧ (m.dispose).1.materials = m.materials ∧
      (m.dispose).2.length
        = m.textures.length + m.gradients.length + m.clipVolumes.length ∧
      IdMap.dispose (m.dispose).1 = ((m.dispose).1, []) := by
  refine ⟨rfl, rfl, rfl, rfl, ?_, rfl⟩
  simp [IdMap.dispose]
  omega

/-- C4: `updateVertexAttribArrays` issues an enable/disable call only for
slots whose enabled bit actually changed and a divisor call only for slots
enabled in the new state whose instanced bit changed; every slot's current
entry becomes the requested state while its next entry keeps only the
instanced bit; the reconciled current array equals the requested array; and
in the concrete scenario current = [Enabled@0], next requesting [Enabled@0,
InstancedEnabled@1], the pass issues exactly one enable call and one
divisor-set call, both for slot 1, and no call for slot 0. -/
theorem updateVertexAttribArrays_reconciliation :
    (∀ i c n : Nat,
      (GLCall.enableVertexAttribArray i ∈ (updateSlot i c n).2.2 ↔
        (hasEnabledBit n = true ∧ hasEnabledBit c = false)) ∧
      (GLCall.disableVertexAttribArray i ∈ (updateSlot i c n).2.2 ↔
        (hasEnabledBit n = false ∧ hasEnabledBit c = true)) ∧
      (∀ d : Nat, GLCall.vertexAttribDivisor i d ∈ (updateSlot i c n).2.2 ↔
        (hasEnabledBit n = true ∧ ¬ hasInstancedBit c = hasInstancedBit n ∧
          d = (if hasInstancedBit n then 1 else 0))) ∧
      (updateSlot i c n).1 = n ∧
      hasEnabledBit (updateSlot i c n).2.1 = false ∧
      hasInstancedBit (updateSlot i c n).2.1 = hasInstancedBit n) ∧
    (∀ cur next : List Nat, cur.length = next.length →
      (System.updateVertexAttribArrays cur next).1 = next ∧
      (System.updateVertexAttribArrays cur next).2.1 = next.map clearEnabledBit) ∧
    (System.updateVertexAttribArrays vasCur1 vasNext2 =
        (vasNext2, List.map clearEnabledBit vasNext2,
          [GLCall.enableVertexAttribArray 1, GLCall.vertexAttribDivisor 1 1]) ∧
      vasCur1 = [1, 0, 0, 0, 0, 0, 0, 0, 0, 0, 0, 0] ∧
      vasNext2 = [1, 5, 0, 0, 0, 0, 0, 0, 0, 0, 0, 0] ∧
      List.map clearEnabledBit vasNext2 = [0, 4, 0, 0, 0, 0, 0, 0, 0, 0, 0, 0]) := by
  refine ⟨?_, ?_, ?_⟩
  · intro i c n
    by_cases hc : c = n
    · subst hc
      simp [updateSlot, hasEnabledBit_clearEnabledBit, hasInstancedBit_clearEnabledBit]
    · cases hE : hasEnabledBit c <;> cases hEn : hasEnabledBit n <;>
        cases hI : hasInstancedBit c <;> cases hIn : hasInstancedBit n <;>
        simp [updateSlot, hc, hE, hEn, hI, hIn, hasEnabledBit_clearEnabledBit,
          hasInstancedBit_clearEnabledBit]
  · intro cur next h
    exact ⟨updateVertexAttribArraysAux_fst cur 0 next h,
      updateVertexAttribArraysAux_snd cur 0 next h⟩
  · refine ⟨by decide, by decide, by decide, by decide⟩

/-- Witness for C4: the general array lemma applied to the concrete
current/next fixtures, with the equal-length hypothesis discharged by
evaluation. -/
theorem updateVertexAttribArrays_reconciliation_witness :
    (System.updateVertexAttribArrays vasCur1 vasNext2).1 = vasNext2 ∧
      (System.updateVertexAttribArrays vasCur1 vasNext2).2.1
        = vasNext2.map clearEnabledBit :=
  updateVertexAttribArrays_reconciliation.2.1 vasCur1 vasNext2 (by decide)

/-- C7: two consecutive calls to `bindTexture` (hence to `bindTexture2d` or
`bindTextureCubeMap`, which pass a fixed target) with the same texture on a
unit issue exactly one underlying driver bind call — the second call changes
nothing and emits nothing — while a subsequent bind of a different texture to
that unit issues a second driver bind call; in general the driver is touched
exactly when the requested binding differs from the unit's recorded current
binding. -/
theorem bindTexture_skips_redundant_binds (b : TextureBindings) (unit target : Nat)
    (tex : Option Nat) :
    System.bindTexture (System.bindTexture b unit target tex).1 unit target tex
        = ((System.bindTexture b unit target tex).1, []) ∧
      countBindCalls (System.bindTexture b unit target tex).2 ≤ 1 ∧
      (¬ b (unit - TextureUnit.Zero) = tex →
        countBindCalls (System.bindTexture b unit target tex).2 = 1) ∧
      (∀ tex2 : Option Nat, ¬ tex2 = tex →
        (System.bindTexture (System.bindTexture b unit target tex).1 unit target tex2).2
          = [GLCall.activeTexture unit, GLCall.bindTexture target tex2]) ∧
      ((System.bindTexture b unit target tex).2 = [] ↔
        b (unit - TextureUnit.Zero) = tex) := by
  by_cases h : b (unit - TextureUnit.Zero) = tex
  · refine ⟨?_, ?_, ?_, ?_, ?_⟩
    · simp [System.bindTexture, h]
    · simp [System.bindTexture, h, countBindCalls]
    · intro hne
      exact absurd h hne
    · intro tex2 hne
      have hne' : ¬ tex = tex2 := fun hc => hne hc.symm
      simp [System.bindTexture, h, hne']
    · simp [System.bindTexture, h]
  · refine ⟨?_, ?_, ?_, ?_, ?_⟩
    · simp [System.bindTexture, h]
    · simp [System.bindTexture, h, countBindCalls, List.filter]
    · intro _
      simp [System.bindTexture, h, countBindCalls, List.filter]
    · intro tex2 hne
      have hne' : ¬ tex = tex2 := fun hc => hne hc.symm
      simp [System.bindTexture, h, hne']
    · simp [System.bindTexture, h]

/-- Witness for C7 at a concrete unit and textures: binding texture `5` to
unit `TEXTURE1` on an empty binding table issues one bind call, and then
binding texture `9` to the same unit issues a second one. -/
theorem bindTexture_skips_redundant_binds_witness :
    ¬ (fun _ => none : TextureBindings) (33985 - TextureUnit.Zero) = some 5 ∧
      countBindCalls
          (System.bindTexture (fun _ => none) 33985 TextureTarget.TwoDee (some 5)).2 = 1 ∧
      (System.bindTexture
          (System.bindTexture (fun _ => none) 33985 TextureTarget.TwoDee (some 5)).1
          33985 TextureTarget.TwoDee (some 9)).2
        = [GLCall.activeTexture 33985, GLCall.bindTexture TextureTarget.TwoDee (some 9)] :=
  ⟨by simp,
    (bindTexture_skips_redundant_binds (fun _ => none) 33985 TextureTarget.TwoDee
      (some 5)).2.2.1 (by simp),
    (bindTexture_skips_redundant_binds (fun _ => none) 33985 TextureTarget.TwoDee
      (some 5)).2.2.2.1 (some 9) (by simp)⟩

/-- C6: structurally equal (even reference-distinct) gradient symbols resolve
through `getGradient` to the same cached texture — the second call hits the
cache and changes nothing; structurally distinct symbols requested fresh
yield distinct textures; and on a cache miss the gradient is rasterized into
a 256×256 image buffer before the backing texture handle is created, after
which the texture is cached under the symbol. -/
theorem gradient_structural_caching :
    (∀ (m : IdMap) (gpu : GpuEnv) (g1 g2 : GradientSymb) (ctr : Nat),
      gpu.allocOk = true → g1.fields = g2.fields →
      (m.getGradient gpu g1 ctr).1.isSome = true ∧
      IdMap.getGradient (m.getGradient gpu g1 ctr).2.1 gpu g2 (m.getGradient gpu g1 ctr).2.2.1
        = ((m.getGradient gpu g1 ctr).1, (m.getGradient gpu g1 ctr).2.1,
            (m.getGradient gpu g1 ctr).2.2.1, [])) ∧
    (∀ (m : IdMap) (gpu : GpuEnv) (g1 g2 : GradientSymb) (ctr : Nat),
      gpu.allocOk = true → ¬ g1.fields = g2.fields →
      dictLookup GradientSymb.structEq g1 m.gradients = none →
      dictLookup GradientSymb.structEq g2 m.gradients = none →
      (m.getGradient gpu g1 ctr).1.isSome = true ∧
      (IdMap.getGradient (m.getGradient gpu g1 ctr).2.1 gpu g2
          (m.getGradient gpu g1 ctr).2.2.1).1.isSome = true ∧
      ¬ (IdMap.getGradient (m.getGradient gpu g1 ctr).2.1 gpu g2
          (m.getGradient gpu g1 ctr).2.2.1).1 = (m.getGradient gpu g1 ctr).1) ∧
    (∀ (m : IdMap) (gpu : GpuEnv) (g : GradientSymb) (ctr : Nat),
      gpu.allocOk = true →
      dictLookup GradientSymb.structEq g m.gradients = none →
      (m.getGradient gpu g ctr).2.2.2
          = [GLCall.rasterizeGradient 256 256, GLCall.allocTextureHandle 256 256 ctr] ∧
      (m.getGradient gpu g ctr).1.isSome = true ∧
      IdMap.findGradient (m.getGradient gpu g ctr).2.1 g = (m.getGradient gpu g ctr).1) := by
  refine ⟨?_, ?_, ?_⟩
  · intro m gpu g1 g2 ctr ha hf
    cases hl : dictLookup GradientSymb.structEq g1 m.gradients with
    | some t =>
      have hl2 : dictLookup GradientSymb.structEq g2 m.gradients = some t := by
        rw [← dictLookup_structEq_congr g1 g2 hf]
        exact hl
      constructor <;> simp [IdMap.getGradient, hl, hl2]
    | none =>
      constructor <;>
        simp [IdMap.getGradient, hl, TextureHandle.createForImageBuffer, ha,
          IdMap.addGradient, dictLookup_dictSet_structEq g1 g2 _ hf]
  · intro m gpu g1 g2 ctr ha hf hl1 hl2
    have hl2' : dictLookup GradientSymb.structEq g2
        (dictSet GradientSymb.structEq g1
          ⟨⟨none, TextureType.Normal, true⟩, ctr, ctr + 1⟩ m.gradients) = none := by
      rw [dictLookup_dictSet_structNe g1 g2 _ hf]
      exact hl2
    refine ⟨?_, ?_, ?_⟩ <;>
      simp [IdMap.getGradient, hl1, TextureHandle.createForImageBuffer, ha,
        IdMap.addGradient, hl2', Texture.mk.injEq] <;>
      omega
  · intro m gpu g ctr ha hl
    refine ⟨?_, ?_, ?_⟩ <;>
      simp [IdMap.getGradient, hl, TextureHandle.createForImageBuffer, ha,
        IdMap.addGradient, IdMap.findGradient,
        dictLookup_dictSet_structEq g g _ rfl]

/-- Witness for C6 at concrete symbols: `gradA` and `gradA'` are structurally
equal but reference-distinct and share one cached texture; `gradB` is
structurally distinct and gets its own texture; the first miss rasterizes a
256×256 buffer before allocating the handle. -/
theorem gradient_structural_caching_witness :
    (IdMap.getGradient IdMap.empty gpuOk gradA 0).1.isSome = true ∧
    IdMap.getGradient (IdMap.getGradient IdMap.empty gpuOk gradA 0).2.1 gpuOk gradA'
        (IdMap.getGradient IdMap.empty gpuOk gradA 0).2.2.1
      = ((IdMap.getGradient IdMap.empty gpuOk gradA 0).1,
          (IdMap.getGradient IdMap.empty gpuOk gradA 0).2.1,
          (IdMap.getGradient IdMap.empty gpuOk gradA 0).2.2.1, []) ∧
    ¬ (IdMap.getGradient (IdMap.getGradient IdMap.empty gpuOk gradA 0).2.1 gpuOk gradB
        (IdMap.getGradient IdMap.empty gpuOk gradA 0).2.2.1).1
      = (IdMap.getGradient IdMap.empty gpuOk gradA 0).1 ∧
    (IdMap.getGradient IdMap.empty gpuOk gradA 0).2.2.2
      = [GLCall.rasterizeGradient 256 256, GLCall.allocTextureHandle 256 256 0] :=
  ⟨(gradient_structural_caching.1 IdMap.empty gpuOk gradA gradA' 0 rfl rfl).1,
    (gradient_structural_caching.1 IdMap.empty gpuOk gradA gradA' 0 rfl rfl).2,
    (gradient_structural_caching.2.1 IdMap.empty gpuOk gradA gradB 0 rfl (by decide)
      rfl rfl).2.2,
    (gradient_structural_caching.2.2 IdMap.empty gpuOk gradA 0 rfl rfl).1⟩

/-- C8: when creation of the underlying texture handle fails, the get/create
operation returns no resource (the embedding is total, so nothing is raised),
and the IdMap is returned completely unchanged — both for keyed image-buffer
textures and for gradient textures (whose rasterization still happens before
the failed allocation attempt). -/
theorem texture_creation_failure_returns_none :
    (∀ (m : IdMap) (gpu : GpuEnv) (img : ImageBuffer) (params : TextureParams) (ctr : Nat),
      gpu.allocOk = false → m.findTexture params.key = none →
      m.getTexture gpu img params ctr = (none, m, ctr, [])) ∧
    (∀ (m : IdMap) (gpu : GpuEnv) (g : GradientSymb) (ctr : Nat),
      gpu.allocOk = false → dictLookup GradientSymb.structEq g m.gradients = none →
      m.getGradient gpu g ctr = (none, m, ctr, [GLCall.rasterizeGradient 256 256])) := by
  constructor
  · intro m gpu img params ctr ha hf
    simp [IdMap.getTexture, hf, IdMap.createTextureFromImageBuffer,
      TextureHandle.createForImageBuffer, ha, IdMap.createTexture]
  · intro m gpu g ctr ha hl
    simp [IdMap.getGradient, hl, TextureHandle.createForImageBuffer, ha]

/-- Witness for C8: on the failing GPU oracle, a fresh IdMap is unchanged and
no texture is produced, for an image-buffer texture and a gradient texture. -/
theorem texture_creation_failure_returns_none_witness :
    IdMap.getTexture IdMap.empty gpuFail ⟨2, 2⟩ ⟨some "t", 0, false⟩ 0
        = (none, IdMap.empty, 0, []) ∧
      IdMap.getGradient IdMap.empty gpuFail gradA 0
        = (none, IdMap.empty, 0, [GLCall.rasterizeGradient 256 256]) :=
  ⟨texture_creation_failure_returns_none.1 IdMap.empty gpuFail ⟨2, 2⟩
      ⟨some "t", 0, false⟩ 0 rfl rfl,
    texture_creation_failure_returns_none.2 IdMap.empty gpuFail gradA 0 rfl rfl⟩

/-- C9 (failing evaluation): the `System` constructor subscribes the bound
closure `this.removeIModelMap.bind(this)` — a fresh function object, here
with identity 1 — while `System.dispose()` passes the unbound method
`this.removeIModelMap` (identity 0) to `removeListener`; the identities
differ, so after dispose the listener registered at construction is still
subscribed to the close event, contradicting the claim that dispose removes
it. -/
theorem system_dispose_leaves_close_listener :
    (System.disposeListeners (System.constructListeners 0 ⟨[]⟩ 1).1
        (System.constructListeners 0 ⟨[]⟩ 1).2.1).listeners
      = [(System.constructListeners 0 ⟨[]⟩ 1).1.boundListenerId] := by decide

/-- C5 counterexample: on the 4 corners of a non-square rectangle (2×1) with
no clip, the single quad facet's UV parameters are (0,0), (1,0), (1,1/2),
(0,1/2) — the scale `1 / (high.x - low.x)` is derived from the x-extent only
— and not the claimed (0,0), (1,0), (1,1), (0,1); UV does not span [0,1]
across the tile in y. -/
theorem sheetTile_rectangle_uv_counterexample :
    (((System.createSheetTilePolyfaces rectCorners none).headD ⟨[]⟩).facets.headD
        ⟨[], []⟩).params = [⟨0, 0⟩, ⟨1, 0⟩, ⟨1, 1/2⟩, ⟨0, 1/2⟩] ∧
      ¬ (((System.createSheetTilePolyfaces rectCorners none).headD ⟨[]⟩).facets.headD
          ⟨[], []⟩).params = [⟨0, 0⟩, ⟨1, 0⟩, ⟨1, 1⟩, ⟨0, 1⟩] := by
  constructor <;>
    norm_num [System.createSheetTilePolyfaces, Range3d.createArray, sheetParamsOf,
      List.foldl, rectCorners, Point2d.mk.injEq, min_def, max_def]

/-- C5 (amended): for the 4 corners of an axis-aligned square (any origin and
height, side `s > 0`, counter-clockwise from the low corner) with no clip,
the tessellation produces exactly one polyface with exactly one quad facet
whose four per-vertex UV parameters are (0,0), (1,0), (1,1), (0,1) in point
order; and for the unit square clipped to its own centered 50% shrink, every
resulting UV parameter lies within [1/4, 3/4]². -/
theorem sheetTile_square_uv :
    (∀ x0 y0 z s : ℚ, 0 < s →
      System.createSheetTilePolyfaces
          [⟨x0, y0, z⟩, ⟨x0 + s, y0, z⟩, ⟨x0 + s, y0 + s, z⟩, ⟨x0, y0 + s, z⟩] none
        = [⟨[⟨[⟨x0, y0, z⟩, ⟨x0 + s, y0, z⟩, ⟨x0 + s, y0 + s, z⟩, ⟨x0, y0 + s, z⟩],
            [⟨0, 0⟩, ⟨1, 0⟩, ⟨1, 1⟩, ⟨0, 1⟩]⟩]⟩]) ∧
    (∀ f ∈ ((System.createSheetTilePolyfaces unitSquareCorners
        (some unitSquareShrink50)).headD ⟨[]⟩).facets,
      ∀ p ∈ f.params, 1/4 ≤ p.x ∧ p.x ≤ 3/4 ∧ 1/4 ≤ p.y ∧ p.y ≤ 3/4) := by
  constructor
  · intro x0 y0 z s hs
    have hs' : s ≠ 0 := ne_of_gt hs
    have hle : x0 ≤ x0 + s := by linarith
    have hley : y0 ≤ y0 + s := by linarith
    simp only [System.createSheetTilePolyfaces, Range3d.createArray, List.foldl]
    simp only [min_self, max_self, min_eq_left hle, max_eq_right hle, max_eq_left hle,
      min_eq_left hley, max_eq_right hley, max_eq_left hley]
    norm_num [sheetParamsOf, add_sub_cancel_left, sub_self, mul_one_div, div_self hs',
      mul_inv_cancel₀ hs', Point2d.mk.injEq]
  · norm_num [System.createSheetTilePolyfaces, Range3d.createArray, sheetParamsOf,
      List.foldl, unitSquareCorners, unitSquareShrink50,
      ClipUtilities.clipPolygonToClipShape, cyclicPairs, clipEdgeHalfPlane, sideOf,
      edgeCrossing, interpPoint, min_def, max_def]

/-- Witness for C5: the amended statement applied to the concrete square with
side 2 at the origin, and to a concrete facet and UV of the clipped unit
square. -/
theorem sheetTile_square_uv_witness :
    System.createSheetTilePolyfaces [⟨0, 0, 0⟩, ⟨2, 0, 0⟩, ⟨2, 2, 0⟩, ⟨0, 2, 0⟩] none
        = [⟨[⟨[⟨0, 0, 0⟩, ⟨2, 0, 0⟩, ⟨2, 2, 0⟩, ⟨0, 2, 0⟩],
            [⟨0, 0⟩, ⟨1, 0⟩, ⟨1, 1⟩, ⟨0, 1⟩]⟩]⟩] ∧
      ((1 : ℚ)/4 ≤ (⟨1/4, 1/4⟩ : Point2d).x ∧ (⟨1/4, 1/4⟩ : Point2d).x ≤ 3/4 ∧
        (1 : ℚ)/4 ≤ (⟨1/4, 1/4⟩ : Point2d).y ∧ (⟨1/4, 1/4⟩ : Point2d).y ≤ 3/4) :=
  ⟨by simpa using sheetTile_square_uv.1 0 0 0 2 (by norm_num),
    sheetTile_square_uv.2
      ⟨[⟨1/4, 1/4, 0⟩, ⟨3/4, 1/4, 0⟩, ⟨3/4, 3/4, 0⟩, ⟨1/4, 3/4, 0⟩],
        [⟨1/4, 1/4⟩, ⟨3/4, 1/4⟩, ⟨3/4, 3/4⟩, ⟨1/4, 3/4⟩]⟩
      (by norm_num [System.createSheetTilePolyfaces, Range3d.createArray, sheetParamsOf,
        List.foldl, unitSquareCorners, unitSquareShrink50,
        ClipUtilities.clipPolygonToClipShape, cyclicPairs, clipEdgeHalfPlane, sideOf,
        edgeCrossing, interpPoint, min_def, max_def])
      ⟨1/4, 1/4⟩ (by norm_num)⟩

end RenderWebGL
